import Mathlib

/- Shallow embedding of ps3rover20.py (RoverPylot), the PS3-controller
   teleoperation loop for the Brookstone Rover 2.0.  Python floats (clock
   readings, axis values) are modeled as rationals; calls into the external
   vehicle collaborator (Rover20) are modeled as an inductive command type;
   the pygame and cv2 environment (button states, axis readings, decode
   outcomes, pending keys) is passed in explicitly to each step. -/

/-- Square button index, toggles lights (ps3rover20.py line 29). -/
def BUTTON_LIGHTS : Nat := 3

/-- Circle button index, toggles stealth mode (line 30). -/
def BUTTON_STEALTH : Nat := 1

/-- Triangle button index, raises camera (line 31). -/
def BUTTON_CAMERA_UP : Nat := 0

/-- X button index, lowers camera (line 32). -/
def BUTTON_CAMERA_DOWN : Nat := 2

/-- Debounce delay between accepted button presses, in seconds (line 35). -/
def MIN_BUTTON_LAG_SEC : ℚ := 1/2

/-- Dead zone for the analog sticks (line 36). -/
def MIN_AXIS_ABSVAL : ℚ := 1/100

/-- Calls made into the vehicle collaborator (Rover20 methods). -/
inductive Cmd
  | turnLightsOn
  | turnLightsOff
  | turnStealthOn
  | turnStealthOff
  | moveCameraVertical (dir : Int)
  | setTreads (left right : Int)
deriving DecidableEq

/-- A decoded raster image; its pixel content is irrelevant to the control
    logic, only whether decoding produced one. -/
abbrev Image := Unit

/-- The mutable PS3Rover attributes read and written by the per-frame tick
    (set up in PS3Rover init, lines 60-97).  The pcm file handle is modeled
    separately because processAudio touches nothing else. -/
structure RoverState where
  quit : Bool
  lights_are_on : Bool
  stealth_is_on : Bool
  last_button_time : ℚ
  video_enabled : Bool
deriving DecidableEq

/-- The state right after PS3Rover init (lines 60-97): quit false, both
    toggles off, last_button_time 0.  video_enabled records whether cv2 was
    importable and the window could be created. -/
def init_state (video_enabled : Bool) : RoverState :=
  { quit := false, lights_are_on := false, stealth_is_on := false,
    last_button_time := 0, video_enabled := video_enabled }

/-- External inputs consumed by one processVideo call: the pygame button and
    axis reads, the two time.time() samples taken inside the two
    check_button calls (lights first, then stealth), the cv2.imdecode
    outcome for the incoming jpeg payload (none when the payload is empty or
    malformed and decoding returned None, or when it raised a cv2.error or
    ValueError that the except clause absorbs), and the raw cv2.waitKey
    return value (-1 when no key is pending). -/
structure TickInput where
  button_lights : Bool
  button_stealth : Bool
  button_camera_up : Bool
  button_camera_down : Bool
  axis1 : ℚ
  axis3 : ℚ
  now_lights : ℚ
  now_stealth : ℚ
  decode_result : Option Image
  key : Int
deriving DecidableEq

/-- PS3Rover check_button (lines 176-191).  Returns the new flag, the new
    last_button_time, and the collaborator calls made (the invoked routine,
    when one was supplied and a transition fired).  The Python method reads
    the clock itself; current_time is the value time.time() returned. -/
def check_button (flag held : Bool) (current_time last_button_time : ℚ)
    (on_routine off_routine : Option Cmd) : Bool × ℚ × List Cmd :=
  if held then
    if MIN_BUTTON_LAG_SEC < current_time - last_button_time then
      if flag then
        (false, current_time, off_routine.toList)
      else
        (true, current_time, on_routine.toList)
    else
      (flag, last_button_time, [])
  else
    (flag, last_button_time, [])

/-- The dead-zone mapping at the heart of PS3Rover get_axis_value
    (lines 164-173), with the dead zone as an explicit parameter: the source
    stores value = -raw (the sign-inverted reading) and compares it against
    the dead-zone edges; value is inlined here. -/
def direction (raw dz : ℚ) : Int :=
  if dz < -raw then 1
  else if -raw < -dz then -1
  else 0

/-- PS3Rover get_axis_value (lines 164-173): direction at the configured
    dead zone MIN_AXIS_ABSVAL. -/
def get_axis_value (raw : ℚ) : Int :=
  direction raw MIN_AXIS_ABSVAL

/-- The video display block of processVideo (lines 146-161).  When video is
    enabled and the frame decoded, the image is shown and the masked
    cv2.waitKey value is compared with 27 (ESC); masking with 0xFF equals
    reduction mod 256 for the values cv2.waitKey returns, including -1.
    A failed decode, or disabled video, shows nothing and leaves quit
    unchanged. -/
def process_video_display (video_enabled : Bool) (decoded : Option Image)
    (key : Int) (quit : Bool) : Bool × List Image :=
  if video_enabled then
    match decoded with
    | some image =>
        if key % 256 = 27 then (true, [image]) else (quit, [image])
    | none => (quit, [])
  else
    (quit, [])

/-- PS3Rover processVideo (lines 113-161): the per-frame tick.  Returns the
    new state, the collaborator calls in issue order (lights toggle action,
    stealth toggle action, camera command, treads command), and the images
    shown.  Note that the stealth check_button call receives the
    last_button_time produced by the lights call: the timestamp is a single
    shared attribute. -/
def processVideo (s : RoverState) (inp : TickInput) :
    RoverState × List Cmd × List Image :=
  let lightsR := check_button s.lights_are_on inp.button_lights inp.now_lights
      s.last_button_time (some Cmd.turnLightsOn) (some Cmd.turnLightsOff)
  let stealthR := check_button s.stealth_is_on inp.button_stealth
      inp.now_stealth lightsR.2.1 (some Cmd.turnStealthOn)
      (some Cmd.turnStealthOff)
  let cameraCmd :=
    if inp.button_camera_up then Cmd.moveCameraVertical 1
    else if inp.button_camera_down then Cmd.moveCameraVertical (-1)
    else Cmd.moveCameraVertical 0
  let treadsCmd := Cmd.setTreads (get_axis_value inp.axis1)
      (get_axis_value inp.axis3)
  let disp := process_video_display s.video_enabled inp.decode_result inp.key
      s.quit
  ({ s with
      lights_are_on := lightsR.1,
      stealth_is_on := stealthR.1,
      last_button_time := stealthR.2.1,
      quit := disp.1 },
   lightsR.2.2 ++ stealthR.2.2 ++ [cameraCmd, treadsCmd],
   disp.2)

/-- Models the rover20.pcm capture artifact together with the external write
    behavior of its file handle: the lines written so far, and a write
    budget (none = every write succeeds; some n = the next n writes succeed
    and the one after raises IOError). -/
structure PcmFile where
  lines : List String
  write_budget : Option Nat
deriving DecidableEq

/-- The write loop of processAudio (lines 106-111): each sample is written
    as its own line.  The first failing write raises IOError, which the
    except clause absorbs, abandoning the rest of the batch; the lines
    already written stay written. -/
def writeSamples : List String → Option Nat → List Int →
    List String × Option Nat
  | ls, budget, [] => (ls, budget)
  | ls, some 0, _ :: _ => (ls, some 0)
  | ls, some (n + 1), samp :: rest =>
      writeSamples (ls ++ [toString samp]) (some n) rest
  | ls, none, samp :: rest =>
      writeSamples (ls ++ [toString samp]) none rest

/-- PS3Rover processAudio (lines 99-111): skips everything when the pcm file
    failed to open at startup, otherwise appends the batch. -/
def processAudio (pcm_file : Option PcmFile) (pcmsamples : List Int) :
    Option PcmFile :=
  match pcm_file with
  | none => none
  | some f =>
      let r := writeSamples f.lines f.write_budget pcmsamples
      some { lines := r.1, write_budget := r.2 }

/-- The continuation test of the main loop, while not rover.quit
    (line 227). -/
def loop_continues (s : RoverState) : Bool := !s.quit

/-- Outcome of a sequence of check_button evaluations: final flag, final
    last_button_time, how many times the flag flipped, and the actions
    invoked. -/
structure RunResult where
  flag : Bool
  last : ℚ
  flips : Nat
  actions : List Cmd
deriving DecidableEq

/-- Repeated check_button evaluation with the button held at each of the
    given clock readings, wired (like the lights control) to an on routine
    and an off routine. -/
def run_held (flag : Bool) (last : ℚ) : List ℚ → RunResult
  | [] => { flag := flag, last := last, flips := 0, actions := [] }
  | t :: ts =>
      let c := check_button flag true t last (some Cmd.turnLightsOn)
          (some Cmd.turnLightsOff)
      let r := run_held c.1 c.2.1 ts
      { flag := r.flag, last := r.last,
        flips := (if c.1 = flag then 0 else 1) + r.flips,
        actions := c.2.2 ++ r.actions }

/-- Exit paths of main (lines 208-244).  quitKey: the while loop observed
    rover.quit true and the try block returned 0.  interrupt: SIGINT arrived
    after the handler was installed, so the signal handler ran and called
    sys.exit(0).  startupError: the PS3Rover constructor raised RuntimeError
    (no controller detected), leaving the local rover bound to None.
    loopError: an unexpected exception escaped the loop body after rover was
    bound. -/
inductive ExitPath
  | quitKey
  | interrupt
  | startupError
  | loopError
deriving DecidableEq

/-- Invocation counts of rover.cleanup() and rover.close() over one run. -/
structure ShutdownCounts where
  cleanup_calls : Nat
  close_calls : Nat
deriving DecidableEq

/-- What the f_globals lookup inside the signal handler (line 43) yields:
    rover is a local variable of main and the module top level never binds a
    global of that name (the main block calls sys.exit(main()) directly), so
    the lookup yields None. -/
def signal_handler_rover : Option Unit := none

/-- Cleanup and close calls performed by the signal handler (lines 40-47):
    performed only when the rover lookup succeeds. -/
def signal_handler_counts : ShutdownCounts :=
  match signal_handler_rover with
  | some _ => { cleanup_calls := 1, close_calls := 1 }
  | none => { cleanup_calls := 0, close_calls := 0 }

/-- Whether the local rover of main is bound to an object when the finally
    block runs: false exactly when the constructor raised (line 213). -/
def rover_bound : ExitPath → Bool
  | .startupError => false
  | _ => true

/-- Cleanup and close calls performed by the finally block (lines 238-243),
    guarded by if rover. -/
def finally_counts (bound : Bool) : ShutdownCounts :=
  if bound then { cleanup_calls := 1, close_calls := 1 }
  else { cleanup_calls := 0, close_calls := 0 }

/-- Total rover.cleanup() and rover.close() invocations over one run of main
    ending on the given exit path.  On interrupt, sys.exit(0) in the handler
    raises SystemExit, which none of the except clauses catch (they catch
    RuntimeError, KeyboardInterrupt and Exception only), so the finally
    block still runs on the way out. -/
def main_counts (p : ExitPath) : ShutdownCounts :=
  let h := match p with
    | ExitPath.interrupt => signal_handler_counts
    | _ => { cleanup_calls := 0, close_calls := 0 }
  let f := finally_counts (rover_bound p)
  { cleanup_calls := h.cleanup_calls + f.cleanup_calls,
    close_calls := h.close_calls + f.close_calls }

/-- A tick with both toggle buttons held at clock reading 1, everything else
    idle: no camera buttons, centered sticks, no decodable frame, no pending
    key. -/
def tick_both : TickInput :=
  { button_lights := true, button_stealth := true, button_camera_up := false,
    button_camera_down := false, axis1 := 0, axis3 := 0, now_lights := 1,
    now_stealth := 1, decode_result := none, key := -1 }

/-- The same tick with the lights button released. -/
def tick_stealth_only : TickInput :=
  { tick_both with button_lights := false }

/-- Whether a collaborator call is a camera tilt command. -/
def Cmd.isCamera : Cmd → Bool
  | .moveCameraVertical _ => true
  | _ => false

/-- Helper: a check_button call wired to non-camera routines never issues a
    camera command. -/
theorem check_button_no_camera (flag held : Bool) (now last : ℚ)
    (onc offc : Cmd) (h1 : onc.isCamera = false) (h2 : offc.isCamera = false) :
    ((check_button flag held now last (some onc) (some offc)).2.2).filter
      Cmd.isCamera = [] := by
  unfold check_button
  split_ifs <;> simp [h1, h2]

/-- Helper: the last_button_time that check_button returns does not depend on
    the flag value nor on the routines, only on whether the button is held
    and on the two times. -/
theorem check_button_time_ignores_flag (f1 f2 held : Bool) (now last : ℚ)
    (o1 o2 o3 o4 : Option Cmd) :
    (check_button f1 held now last o1 o2).2.1
      = (check_button f2 held now last o3 o4).2.1 := by
  unfold check_button
  split_ifs <;> rfl

/-- C4: every flip of a debounce toggle flag is paired 1:1 with exactly one
    action invocation: the on routine is invoked exactly when the flag goes
    false to true, the off routine exactly when it goes true to false, and a
    call that returns the flag unchanged (button not held, or within the
    debounce interval) invokes no action. -/
theorem check_button_action_pairing (flag held : Bool) (now last : ℚ)
    (onc offc : Cmd) :
    (check_button flag held now last (some onc) (some offc)).2.2
      = if (check_button flag held now last (some onc) (some offc)).1 = flag
        then []
        else if flag then [offc] else [onc] := by
  unfold check_button
  cases held <;> cases flag <;> simp <;>
    by_cases h : MIN_BUTTON_LAG_SEC < now - last <;> simp [h]

/-- C5: for every raw axis reading and nonnegative dead zone, the direction
    mapping returns a value in -1, 0, 1; it returns 0 exactly when the
    magnitude of the raw reading is at most the dead zone (the boundary maps
    to 0), and a non-zero result has the sign of the negated raw reading. -/
theorem axis_direction_spec (raw dz : ℚ) (hdz : 0 ≤ dz) :
    (direction raw dz = 0 ∨ direction raw dz = 1 ∨ direction raw dz = -1) ∧
    (direction raw dz = 0 ↔ |raw| ≤ dz) ∧
    (direction raw dz = 1 → 0 < -raw) ∧
    (direction raw dz = -1 → -raw < 0) := by
  unfold direction
  split_ifs with h1 h2
  · refine ⟨Or.inr (Or.inl rfl), ⟨fun h => absurd h (by decide), fun h => ?_⟩,
      fun _ => by linarith, fun h => absurd h (by decide)⟩
    rw [abs_le] at h
    exfalso
    linarith [h.1]
  · refine ⟨Or.inr (Or.inr rfl), ⟨fun h => absurd h (by decide), fun h => ?_⟩,
      fun h => absurd h (by decide), fun _ => by linarith⟩
    rw [abs_le] at h
    exfalso
    linarith [h.2]
  · refine ⟨Or.inl rfl, ⟨fun _ => ?_, fun _ => rfl⟩,
      fun h => absurd h (by decide), fun h => absurd h (by decide)⟩
    rw [abs_le]
    constructor <;> linarith

/-- Witness for axis_direction_spec at raw -1/10, dead zone 1/100. -/
theorem axis_direction_spec_witness :
    (0 : ℚ) ≤ 1/100 ∧
    ((direction (-1/10) (1/100) = 0 ∨ direction (-1/10) (1/100) = 1 ∨
        direction (-1/10) (1/100) = -1) ∧
     (direction (-1/10) (1/100) = 0 ↔ |(-1/10 : ℚ)| ≤ 1/100) ∧
     (direction (-1/10) (1/100) = 1 → 0 < -(-1/10 : ℚ)) ∧
     (direction (-1/10) (1/100) = -1 → -(-1/10 : ℚ) < 0)) :=
  ⟨by norm_num, axis_direction_spec (-1/10) (1/100) (by norm_num)⟩

/-- C8: on every tick exactly one camera command is issued, and it is
    tri-state and mutually exclusive: 1 when the camera-up button is pressed
    (up is checked first, so it wins over down), otherwise -1 when the
    camera-down button is pressed, otherwise 0. -/
theorem camera_command_exclusive (s : RoverState) (inp : TickInput) :
    ((processVideo s inp).2.1).filter Cmd.isCamera
      = [Cmd.moveCameraVertical
          (if inp.button_camera_up then 1
           else if inp.button_camera_down then -1 else 0)] := by
  have hL := check_button_no_camera s.lights_are_on inp.button_lights
    inp.now_lights s.last_button_time Cmd.turnLightsOn Cmd.turnLightsOff
    rfl rfl
  have hS := check_button_no_camera s.stealth_is_on inp.button_stealth
    inp.now_stealth
    (check_button s.lights_are_on inp.button_lights inp.now_lights
      s.last_button_time (some Cmd.turnLightsOn) (some Cmd.turnLightsOff)).2.1
    Cmd.turnStealthOn Cmd.turnStealthOff rfl rfl
  unfold processVideo
  by_cases hu : inp.button_camera_up <;>
    by_cases hd : inp.button_camera_down <;>
      simp [hu, hd, List.filter_append, hL, hS, Cmd.isCamera, List.filter]

/-- C9: the quit flag starts false, is monotone across ticks (the new value
    is the old one ORed with this frame observing the ESC key on a decoded
    image while video is enabled, so a tick never resets it), it becomes
    true only through that ESC observation, and the main loop continues
    exactly while it is false. -/
theorem quit_flag_lifecycle (ve : Bool) (s : RoverState) (inp : TickInput) :
    (init_state ve).quit = false ∧
    (processVideo s inp).1.quit
      = (s.quit || (s.video_enabled && inp.decode_result.isSome
          && (inp.key % 256 == 27))) ∧
    loop_continues s = !s.quit := by
  refine ⟨rfl, ?_, rfl⟩
  unfold processVideo process_video_display
  cases hv : s.video_enabled <;> cases hd : inp.decode_result <;>
    simp [hv, hd]
  by_cases hk : inp.key % 256 = 27 <;> simp [hk]

/-- C6: a frame whose payload failed to decode (empty or malformed payload;
    the decode errors that can arise are caught inside the handler, which is
    total here) leaves the quit flag unchanged and shows nothing, and with
    the display disabled (headless mode) every frame leaves the quit flag
    unchanged and shows nothing. -/
theorem frame_decode_failure_no_effect (s : RoverState) (inp : TickInput)
    (h : inp.decode_result = none ∨ s.video_enabled = false) :
    (processVideo s inp).1.quit = s.quit ∧ (processVideo s inp).2.2 = [] := by
  unfold processVideo process_video_display
  rcases h with h | h
  · cases hv : s.video_enabled <;> simp [h, hv]
  · simp [h]

/-- Witness for frame_decode_failure_no_effect: a tick whose frame payload
    did not decode, with video enabled. -/
theorem frame_decode_failure_no_effect_witness :
    (tick_both.decode_result = none ∨ (init_state true).video_enabled = false)
    ∧ ((processVideo (init_state true) tick_both).1.quit
        = (init_state true).quit ∧
       (processVideo (init_state true) tick_both).2.2 = []) :=
  ⟨Or.inl rfl,
   frame_decode_failure_no_effect (init_state true) tick_both (Or.inl rfl)⟩

/-- Helper: the write loop only ever appends to the existing lines, whatever
    the write budget does. -/
theorem writeSamples_extends (samples : List Int) :
    ∀ (ls : List String) (budget : Option Nat),
      ∃ rest, (writeSamples ls budget samples).1 = ls ++ rest := by
  induction samples with
  | nil =>
      intro ls budget
      exact ⟨[], by simp [writeSamples]⟩
  | cons samp rest ih =>
      intro ls budget
      match budget with
      | none =>
          obtain ⟨r, hr⟩ := ih (ls ++ [toString samp]) none
          exact ⟨toString samp :: r, by simp [writeSamples, hr]⟩
      | some 0 =>
          exact ⟨[], by simp [writeSamples]⟩
      | some (n + 1) =>
          obtain ⟨r, hr⟩ := ih (ls ++ [toString samp]) (some n)
          exact ⟨toString samp :: r, by simp [writeSamples, hr]⟩

/-- C7: recording the batches 1,2,3 then 4,5 into a fresh, healthy artifact
    yields exactly the five lines 1 2 3 4 5 in order; recording into an
    artifact that failed to open is a no-op (and raises nothing, the
    function being total); and whatever the write budget, a record call only
    appends, so everything already written stays written. -/
theorem audio_sink_spec :
    processAudio (processAudio (some ⟨[], none⟩) [1, 2, 3]) [4, 5]
        = some ⟨["1", "2", "3", "4", "5"], none⟩ ∧
    (∀ samples, processAudio none samples = none) ∧
    (∀ (f : PcmFile) (samples : List Int), ∃ f2,
        processAudio (some f) samples = some f2 ∧
        ∃ rest, f2.lines = f.lines ++ rest) := by
  refine ⟨by decide, fun _ => rfl, ?_⟩
  intro f samples
  obtain ⟨r, hr⟩ := writeSamples_extends samples f.lines f.write_budget
  exact ⟨_, rfl, r, hr⟩

/-- C2 counterexample: from the startup state with both toggle buttons held
    on one tick at clock reading 1, the lights evaluation flips and updates
    the shared timestamp, so the stealth toggle stays off; had the lights
    button not been held on the very same tick, the stealth toggle would
    have flipped on.  So evaluating the lights toggle does change whether
    the stealth evaluation of the same tick is debounce-suppressed. -/
theorem toggle_independence_counterexample :
    (processVideo (init_state false) tick_both).1.stealth_is_on = false ∧
    (processVideo (init_state false) tick_stealth_only).1.stealth_is_on
      = true := by
  constructor <;>
    norm_num [processVideo, check_button, process_video_display, init_state,
      tick_both, tick_stealth_only, MIN_BUTTON_LAG_SEC]

/-- C2 amended: each control has its own flag, and neither flag value leaks
    into the other control (the lights outcome is unchanged under any
    stealth flag, and the stealth outcome is unchanged under any lights
    flag, because check_button writes the same timestamp whatever the flag);
    but the debounce timestamp is one shared attribute: the stealth
    evaluation receives the timestamp that the lights evaluation produced,
    and its output becomes the timestamp of the next tick. -/
theorem toggle_flags_independent_timestamp_shared (s : RoverState)
    (inp : TickInput) (a b : Bool) :
    ((processVideo { s with stealth_is_on := b } inp).1.lights_are_on
        = (processVideo s inp).1.lights_are_on) ∧
    ((processVideo { s with lights_are_on := a } inp).1.stealth_is_on
        = (processVideo s inp).1.stealth_is_on) ∧
    ((processVideo s inp).1.last_button_time
        = (check_button s.stealth_is_on inp.button_stealth inp.now_stealth
            (check_button s.lights_are_on inp.button_lights inp.now_lights
              s.last_button_time (some Cmd.turnLightsOn)
              (some Cmd.turnLightsOff)).2.1
            (some Cmd.turnStealthOn) (some Cmd.turnStealthOff)).2.1) := by
  refine ⟨rfl, ?_, rfl⟩
  unfold processVideo
  dsimp only
  rw [check_button_time_ignores_flag a s.lights_are_on inp.button_lights
    inp.now_lights s.last_button_time (some Cmd.turnLightsOn)
    (some Cmd.turnLightsOff) (some Cmd.turnLightsOn) (some Cmd.turnLightsOff)]

/-- Helper: when every clock reading of a held-button run lies within the
    debounce interval of the current last_button_time, nothing happens at
    all: no flip, no action, no timestamp change. -/
theorem run_held_no_flip (times : List ℚ) :
    ∀ (flag : Bool) (last : ℚ),
      (∀ t ∈ times, t - last ≤ MIN_BUTTON_LAG_SEC) →
      run_held flag last times
        = { flag := flag, last := last, flips := 0, actions := [] } := by
  induction times with
  | nil =>
      intro flag last _
      rfl
  | cons t ts ih =>
      intro flag last h
      have ht : ¬ MIN_BUTTON_LAG_SEC < t - last :=
        not_lt.mpr (h t (List.mem_cons_self t ts))
      have hc : check_button flag true t last (some Cmd.turnLightsOn)
          (some Cmd.turnLightsOff) = (flag, last, []) := by
        unfold check_button
        simp [ht]
      have hrec := ih flag last fun u hu => h u (List.mem_cons_of_mem _ hu)
      simp [run_held, hc, hrec]

/-- C3 counterexample: the button is held across three consecutive evaluate
    calls at clock readings 3/5, 9/10 and 6/5, each consecutive pair spaced
    3/10 apart, strictly less than the half-second debounce interval; yet
    starting from the startup timestamp 0 the flag flips twice (at 3/5 and
    again at 6/5, more than the interval after the first flip) and two
    actions fire, contradicting at most one flip in total. -/
theorem debounce_spacing_two_flips :
    ((9 : ℚ)/10 - 3/5 < MIN_BUTTON_LAG_SEC) ∧
    ((6 : ℚ)/5 - 9/10 < MIN_BUTTON_LAG_SEC) ∧
    (run_held false 0 [3/5, 9/10, 6/5]).flips = 2 ∧
    (run_held false 0 [3/5, 9/10, 6/5]).actions.length = 2 := by
  refine ⟨by norm_num [MIN_BUTTON_LAG_SEC], by norm_num [MIN_BUTTON_LAG_SEC],
    ?_, ?_⟩ <;>
    norm_num [run_held, check_button, MIN_BUTTON_LAG_SEC]

/-- C3 amended: for a button held continuously across N consecutive evaluate
    calls that all fall inside one window of length min_interval (every
    clock reading between some t0 and t0 + min_interval), the flag flips at
    most once in total and at most one action fires; mere consecutive
    spacing below min_interval does not suffice, since the debounce clock
    restarts at each accepted flip. -/
theorem debounce_window_at_most_one_flip (t0 : ℚ) (times : List ℚ) :
    ∀ (flag : Bool) (last : ℚ),
      (∀ t ∈ times, t0 ≤ t ∧ t ≤ t0 + MIN_BUTTON_LAG_SEC) →
      (run_held flag last times).flips ≤ 1 ∧
      (run_held flag last times).actions.length ≤ 1 := by
  induction times with
  | nil =>
      intro flag last _
      exact ⟨Nat.zero_le 1, Nat.zero_le 1⟩
  | cons t ts ih =>
      intro flag last h
      by_cases hflip : MIN_BUTTON_LAG_SEC < t - last
      · have ht1 := (h t (List.mem_cons_self t ts)).1
        have hwin : ∀ u ∈ ts, u - t ≤ MIN_BUTTON_LAG_SEC := by
          intro u hu
          have hu2 := (h u (List.mem_cons_of_mem _ hu)).2
          linarith
        cases flag with
        | false =>
            have hc : check_button false true t last (some Cmd.turnLightsOn)
                (some Cmd.turnLightsOff) = (true, t, [Cmd.turnLightsOn]) := by
              unfold check_button
              simp [hflip]
            have hrest := run_held_no_flip ts true t hwin
            simp [run_held, hc, hrest]
        | true =>
            have hc : check_button true true t last (some Cmd.turnLightsOn)
                (some Cmd.turnLightsOff) = (false, t, [Cmd.turnLightsOff]) := by
              unfold check_button
              simp [hflip]
            have hrest := run_held_no_flip ts false t hwin
            simp [run_held, hc, hrest]
      · have hc : check_button flag true t last (some Cmd.turnLightsOn)
            (some Cmd.turnLightsOff) = (flag, last, []) := by
          unfold check_button
          simp [hflip]
        have hrec := ih flag last fun u hu => h u (List.mem_cons_of_mem _ hu)
        simpa [run_held, hc] using hrec

/-- Witness for debounce_window_at_most_one_flip: two held evaluations at
    clock readings 1 and 5/4, both inside the window from 1 to 3/2. -/
theorem debounce_window_at_most_one_flip_witness :
    (∀ t ∈ [(1 : ℚ), 5/4], (1 : ℚ) ≤ t ∧ t ≤ 1 + MIN_BUTTON_LAG_SEC) ∧
    ((run_held false 0 [(1 : ℚ), 5/4]).flips ≤ 1 ∧
     (run_held false 0 [(1 : ℚ), 5/4]).actions.length ≤ 1) :=
  ⟨by
      intro t ht
      fin_cases ht <;> norm_num [MIN_BUTTON_LAG_SEC],
   debounce_window_at_most_one_flip 1 [1, 5/4] false 0 (by
      intro t ht
      fin_cases ht <;> norm_num [MIN_BUTTON_LAG_SEC])⟩

/-- C10: on a tick where both the lights and the stealth buttons are held,
    the debounce interval has elapsed before the lights evaluation, and the
    stealth clock reading follows the lights one within the interval (which
    always holds inside one tick), only the lights toggle flips: its flip
    stores its clock reading into the shared timestamp, so the stealth
    evaluation of the same tick is debounce-suppressed and its flag is
    unchanged. -/
theorem same_tick_at_most_one_flip (s : RoverState) (inp : TickInput)
    (hl : inp.button_lights = true) (hs : inp.button_stealth = true)
    (helapsed : MIN_BUTTON_LAG_SEC < inp.now_lights - s.last_button_time)
    (hgap : inp.now_stealth - inp.now_lights ≤ MIN_BUTTON_LAG_SEC) :
    (processVideo s inp).1.lights_are_on = !s.lights_are_on ∧
    (processVideo s inp).1.stealth_is_on = s.stealth_is_on := by
  have hcl : (check_button s.lights_are_on inp.button_lights inp.now_lights
      s.last_button_time (some Cmd.turnLightsOn)
      (some Cmd.turnLightsOff)).2.1 = inp.now_lights := by
    unfold check_button
    cases s.lights_are_on <;> simp [hl, helapsed]
  have hcl1 : (check_button s.lights_are_on inp.button_lights inp.now_lights
      s.last_button_time (some Cmd.turnLightsOn)
      (some Cmd.turnLightsOff)).1 = !s.lights_are_on := by
    unfold check_button
    cases s.lights_are_on <;> simp [hl, helapsed]
  have hcs : (check_button s.stealth_is_on inp.button_stealth inp.now_stealth
      inp.now_lights (some Cmd.turnStealthOn)
      (some Cmd.turnStealthOff)).1 = s.stealth_is_on := by
    unfold check_button
    simp [hs, not_lt.mpr hgap]
  unfold processVideo
  dsimp only
  rw [hcl, hcl1, hcs]
  exact ⟨rfl, rfl⟩

/-- Witness for same_tick_at_most_one_flip: the startup state and a tick
    with both buttons held at clock reading 1. -/
theorem same_tick_at_most_one_flip_witness :
    (tick_both.button_lights = true ∧ tick_both.button_stealth = true ∧
     MIN_BUTTON_LAG_SEC
        < tick_both.now_lights - (init_state false).last_button_time ∧
     tick_both.now_stealth - tick_both.now_lights ≤ MIN_BUTTON_LAG_SEC) ∧
    ((processVideo (init_state false) tick_both).1.lights_are_on
        = !(init_state false).lights_are_on ∧
     (processVideo (init_state false) tick_both).1.stealth_is_on
        = (init_state false).stealth_is_on) :=
  ⟨⟨rfl, rfl,
    by norm_num [tick_both, init_state, MIN_BUTTON_LAG_SEC],
    by norm_num [tick_both, MIN_BUTTON_LAG_SEC]⟩,
   same_tick_at_most_one_flip (init_state false) tick_both rfl rfl
     (by norm_num [tick_both, init_state, MIN_BUTTON_LAG_SEC])
     (by norm_num [tick_both, MIN_BUTTON_LAG_SEC])⟩

/-- C1 counterexample: on the startup-failure exit path (no controller
    detected, the constructor raised), the local rover is still None when
    the finally block runs, so rover.cleanup() and rover.close() are each
    invoked zero times, not exactly once. -/
theorem main_counts_startup_error_no_cleanup :
    (main_counts ExitPath.startupError).cleanup_calls = 0 ∧
    (main_counts ExitPath.startupError).close_calls = 0 := by
  decide

/-- C1 amended: on the quit-key, interrupt-signal and in-loop fatal-error
    exit paths, rover.cleanup() and the collaborator close() each execute
    exactly once (on interrupt, the handler finds no global named rover and
    does nothing; the finally block then performs the single cleanup); on
    the startup-failure path the local rover was never bound, so neither
    cleanup nor close is invoked at all. -/
theorem main_counts_per_exit_path :
    main_counts ExitPath.quitKey = { cleanup_calls := 1, close_calls := 1 } ∧
    main_counts ExitPath.interrupt
      = { cleanup_calls := 1, close_calls := 1 } ∧
    main_counts ExitPath.loopError
      = { cleanup_calls := 1, close_calls := 1 } ∧
    main_counts ExitPath.startupError
      = { cleanup_calls := 0, close_calls := 0 } := by
  decide
